import Mathlib

/-!
Verification development for the NutriSnap application (`src/app.py`).

The application is a single-page Streamlit tool: it acquires a meal photo,
base64-encodes a JPEG re-compression of it, sends one HTTP POST to a hosted
model endpoint, parses the JSON embedded in the response, stores the parsed
object in session state, and renders it against user-edited daily goals.

The embedding below models:
  * parsed JSON values (`Json`), since the model response is stored without
    any schema validation;
  * Python exceptions relevant to the code paths (`PyError`), with fallible
    operations returning `Except PyError`;
  * rational numbers (`ℚ`) for all numeric values, with Python `round`
    (banker's rounding) as `pyRound` and true division as `pyDiv`
    (raising `ZeroDivisionError` on a zero denominator);
  * the presentation layer (`renderHeader`, `renderNutritionTab`,
    `renderRecipeTab`, `renderSafetyTab`, `renderRightPanel`) as functions
    from the stored JSON and the goal record to view records, in source
    order, with lookup/type failures propagated as errors;
  * the model client (`call_gemini`) and the Decode Nutrition button handler
    (`decodeNutrition`) over an abstract HTTP response, with `jsonLoads` an
    executable JSON parser standing for Python `json.loads`: it accepts
    the non-standard `NaN`, `Infinity` and `-Infinity` constants exactly as
    `json.loads` does by default, and beyond that a mild superset of strict
    JSON (e.g. trailing commas), which only matters on the success side;
    every parse it rejects is rejected by Python too;
  * the startup secrets loading (`loadStartup`);
  * the encoder (`image_to_base64`) on the byte stream produced by the
    external JPEG compressor, with executable base64 encoding and decoding.
-/

/-- Parsed JSON values, as produced by `json.loads` in `call_gemini` and
stored unvalidated in `st.session_state.analysis`. Objects keep their
key/value pairs as an association list. The three non-finite constructors
stand for the `float` values `json.loads` produces for its default-accepted
`NaN`, `Infinity` and `-Infinity` constants. -/
inductive Json where
  | null
  | bool (flag : Bool)
  | num (value : ℚ)
  | nan
  | infinity
  | negInfinity
  | str (text : String)
  | arr (items : List Json)
  | obj (fields : List (String × Json))

/-- Python exceptions arising on the modelled code paths. -/
inductive PyError where
  | zeroDivisionError
  | keyError (key : Json)
  | indexError
  | typeError
  | attributeError
  | fileNotFoundError
  | streamlitAPIException
  | httpError (status : Nat)
  | jsonDecodeError

/-- Association-list lookup with string keys, modelling Python dict
subscripting on the parsed-JSON objects. -/
def assocGet : List (String × Json) → String → Option Json
  | [], _ => none
  | (k, v) :: rest, key => if k = key then some v else assocGet rest key

/-- Association-list lookup for string-to-string dicts (the `risk_color`
dict and the secrets store). -/
def assocGetS : List (String × String) → String → Option String
  | [], _ => none
  | (k, v) :: rest, key => if k = key then some v else assocGetS rest key

/-- Python `d[key]` on a parsed-JSON value: `KeyError` when the key is
missing, `TypeError` when the value is not an object. -/
def Json.getKey : Json → String → Except PyError Json
  | .obj fields, k =>
    match assocGet fields k with
    | some v => .ok v
    | none => .error (.keyError (.str k))
  | _, _ => .error .typeError

/-- Python `d.get(key, default)`: the default when the key is missing,
`AttributeError` when the receiver is not an object. -/
def Json.getD : Json → String → Json → Except PyError Json
  | .obj fields, k, d => .ok ((assocGet fields k).getD d)
  | _, _, _ => .error .attributeError

/-- Python `xs[i]` on a parsed-JSON value. -/
def Json.index : Json → Nat → Except PyError Json
  | .arr items, i =>
    match items.get? i with
    | some v => .ok v
    | none => .error .indexError
  | _, _ => .error .typeError

/-- Use of a parsed-JSON value as a number (division and charting);
non-numbers raise `TypeError` as in Python arithmetic. The non-finite
float values fall outside the rational model and are mapped to errors;
no claim depends on arithmetic over them (in the real program they lead
to float propagation and a `ValueError` in `round`). -/
def Json.asNum : Json → Except PyError ℚ
  | .num q => .ok q
  | _ => .error .typeError

/-- Iteration over a parsed-JSON value as a list; the rendering code only
ever iterates arrays. -/
def Json.asArr : Json → Except PyError (List Json)
  | .arr items => .ok items
  | _ => .error .typeError

/-- Python truthiness of a parsed-JSON value (`if not data:`,
`if alert["detected"]:`). -/
def Json.truthy : Json → Bool
  | .null => false
  | .bool b => b
  | .num q => q ≠ 0
  | .nan => true
  | .infinity => true
  | .negInfinity => true
  | .str s => s ≠ ""
  | .arr items => !items.isEmpty
  | .obj fields => !fields.isEmpty

/-- Python `j == "lit"` for a parsed-JSON value against a string literal:
true only when `j` is that string (values of other types compare unequal). -/
def Json.isStrEq : Json → String → Bool
  | .str s, t => s = t
  | _, _ => false

/-- Python `round` with no digits argument: nearest integer, ties to even. -/
def pyRound (q : ℚ) : ℤ :=
  if q - ⌊q⌋ < 1 / 2 then ⌊q⌋
  else if 1 / 2 < q - ⌊q⌋ then ⌊q⌋ + 1
  else if ⌊q⌋ % 2 = 0 then ⌊q⌋ else ⌊q⌋ + 1

/-- Python true division, raising `ZeroDivisionError` on a zero divisor. -/
def pyDiv (a b : ℚ) : Except PyError ℚ :=
  if b = 0 then .error .zeroDivisionError else .ok (a / b)

/-- The session `daily_goal` dict: four numeric targets. -/
structure DailyGoal where
  calories : ℚ
  proteinG : ℚ
  carbsG : ℚ
  fatG : ℚ

/-- Initial goals installed into session state on first use. -/
def defaultGoal : DailyGoal :=
  { calories := 2000, proteinG := 120, carbsG := 250, fatG := 65 }

/-- The claim-relevant content of the Altair donut chart built by
`create_donut_chart`: the data rows, the categorical color scale, and the
arc order channel. -/
structure DonutChart where
  data : List (String × ℚ)
  colorDomain : List String
  colorRange : List String
  orderField : String
  orderDescending : Bool

/-- Embedding of `create_donut_chart(protein, carbs, fat)`. -/
def create_donut_chart (protein carbs fat : ℚ) : DonutChart :=
  { data := [("Protein", protein), ("Carbs", carbs), ("Fat", fat)]
    colorDomain := ["Protein", "Carbs", "Fat"]
    colorRange := ["#36a2eb", "#ffcd56", "#ff6384"]
    orderField := "Value"
    orderDescending := true }

/-- Value handed to `st.progress` for one macro: `min(value / goal, 1.0)`. -/
def progressValue (value goal : ℚ) : Except PyError ℚ :=
  (pyDiv value goal).map (fun r => min r 1)

/-- The `st.progress` widget itself: accepts a float only in `[0, 1]`,
otherwise raises `StreamlitAPIException`. -/
def st_progress (v : ℚ) : Except PyError ℚ :=
  if 0 ≤ v ∧ v ≤ 1 then .ok v else .error .streamlitAPIException

/-- Header area of the right panel: title, tag badges, insight caption. -/
structure HeaderView where
  foodName : Json
  tags : List Json
  insight : Json

/-- Embedding of app.py lines 211-217: `data['foodName']`, then
`[data['cuisineType']] + data.get('dietaryTags', [])`, then
`data['insightSummary']`. -/
def renderHeader (data : Json) : Except PyError HeaderView := do
  let fn ← data.getKey "foodName"
  let ct ← data.getKey "cuisineType"
  let dt ← data.getD "dietaryTags" (.arr [])
  let dtItems ← dt.asArr
  let ins ← data.getKey "insightSummary"
  pure { foodName := fn, tags := ct :: dtItems, insight := ins }

/-- Nutrition tab contents: the Energy metric, the donut chart, and the
three macro cards with their progress bars. -/
structure NutritionTab where
  energyValue : ℚ
  energyPct : ℤ
  donut : DonutChart
  proteinVal : ℚ
  carbsVal : ℚ
  fatVal : ℚ
  proteinProgress : ℚ
  carbsProgress : ℚ
  fatProgress : ℚ

/-- Embedding of app.py lines 225-251 in source order: the Energy metric
divides `data['calories']` by `goals['calories']` and rounds the percentage,
the donut chart is built from the three macro grams, and each macro card
passes `min(value / goal, 1.0)` to `st.progress`. -/
def renderNutritionTab (data : Json) (goals : DailyGoal) : Except PyError NutritionTab := do
  let cal ← (← data.getKey "calories").asNum
  let ratio ← pyDiv cal goals.calories
  let macros ← data.getKey "macronutrients"
  let p ← (← macros.getKey "proteinG").asNum
  let c ← (← macros.getKey "carbsG").asNum
  let f ← (← macros.getKey "fatG").asNum
  let pr ← progressValue p goals.proteinG
  let pp ← st_progress pr
  let cr ← progressValue c goals.carbsG
  let cp ← st_progress cr
  let fr ← progressValue f goals.fatG
  let fp ← st_progress fr
  pure { energyValue := cal, energyPct := pyRound (ratio * 100)
         donut := create_donut_chart p c f
         proteinVal := p, carbsVal := c, fatVal := f
         proteinProgress := pp, carbsProgress := cp, fatProgress := fp }

/-- Recipe tab contents. -/
structure RecipeTab where
  title : Json
  ingredients : List Json
  instructions : List (Nat × Json)

/-- Embedding of app.py lines 254-268: recipe title, ingredient bullets,
and instructions enumerated from 1. -/
def renderRecipeTab (data : Json) : Except PyError RecipeTab := do
  let recipe ← data.getKey "recipe"
  let title ← recipe.getKey "title"
  let ings ← (← recipe.getKey "ingredients").asArr
  let instrs ← (← recipe.getKey "instructions").asArr
  pure { title := title, ingredients := ings, instructions := List.enumFrom 1 instrs }

/-- The `risk_color` dict literal of app.py lines 274-278. -/
def risk_color : List (String × String) :=
  [("High", "red"), ("Medium", "orange"), ("Low", "green")]

/-- Python dict subscripting with a parsed-JSON key (`risk_color[...]`):
`KeyError` when absent, `TypeError` for unhashable keys. -/
def dictGetJson (d : List (String × String)) (k : Json) : Except PyError String :=
  match k with
  | .str s =>
    match assocGetS d s with
    | some v => .ok v
    | none => .error (.keyError (.str s))
  | .arr _ => .error .typeError
  | .obj _ => .error .typeError
  | other => .error (.keyError other)

/-- Health & Safety tab contents: the colored risk marker, the advice
shown as a warning or a success, and the detected-allergen list. -/
structure SafetyTab where
  riskColor : String
  riskLevel : Json
  adviceIsWarning : Bool
  advice : Json
  showsDetected : Bool
  listed : List Json

/-- Embedding of app.py lines 271-290 in source order: look up
`risk_color[alert['riskLevel']]` for the marker, show the advice with
`st.warning` unless the risk level equals `"Low"` (then `st.success`), and
list each detected entry when the list is truthy. -/
def renderSafetyTab (data : Json) : Except PyError SafetyTab := do
  let alert ← data.getKey "allergenAlert"
  let rl ← alert.getKey "riskLevel"
  let color ← dictGetJson risk_color rl
  let advice ← alert.getKey "advice"
  let detected ← alert.getKey "detected"
  let listed ← if detected.truthy then detected.asArr else pure []
  pure { riskColor := color, riskLevel := rl
         adviceIsWarning := !(rl.isStrEq "Low"), advice := advice
         showsDetected := detected.truthy, listed := listed }

/-- The whole analysis rendering (header plus the three tabs, all of which
execute on every rerun). -/
structure AnalysisView where
  header : HeaderView
  nutrition : NutritionTab
  recipe : RecipeTab
  safety : SafetyTab

/-- Sequential embedding of the right panel's analysis branch; no error
handler surrounds it, so any exception propagates out of the render pass. -/
def renderAnalysis (data : Json) (goals : DailyGoal) : Except PyError AnalysisView := do
  let h ← renderHeader data
  let n ← renderNutritionTab data goals
  let r ← renderRecipeTab data
  let s ← renderSafetyTab data
  pure { header := h, nutrition := n, recipe := r, safety := s }

/-- The right panel: placeholder when the store is empty or falsy,
otherwise the analysis view. -/
inductive RightPanel where
  | placeholder
  | analysis (v : AnalysisView)

/-- Embedding of app.py lines 195-290: read the Analysis Store and either
show the placeholder (`if not data:`) or render the analysis. -/
def renderRightPanel (store : Option Json) (goals : DailyGoal) : Except PyError RightPanel :=
  match store with
  | none => .ok .placeholder
  | some data =>
    if data.truthy then (renderAnalysis data goals).map .analysis
    else .ok .placeholder

/-- A fully populated `AnalysisResult` object, laid out exactly per the
response schema the system prompt demands (spec section 3). -/
def mkAnalysisJson (foodName cuisineType : String) (calories proteinG carbsG fatG : ℚ)
    (insight : String) (dietaryTags : List String) (recipeTitle : String)
    (ingredients instructions : List String) (riskLevel : String)
    (detected : List String) (advice : String) : Json :=
  Json.obj
    [("foodName", .str foodName),
     ("cuisineType", .str cuisineType),
     ("calories", .num calories),
     ("macronutrients", .obj
        [("proteinG", .num proteinG), ("carbsG", .num carbsG), ("fatG", .num fatG)]),
     ("insightSummary", .str insight),
     ("dietaryTags", .arr (dietaryTags.map .str)),
     ("recipe", .obj
        [("title", .str recipeTitle),
         ("ingredients", .arr (ingredients.map .str)),
         ("instructions", .arr (instructions.map .str))]),
     ("allergenAlert", .obj
        [("riskLevel", .str riskLevel),
         ("detected", .arr (detected.map .str)),
         ("advice", .str advice)])]

/-- A concrete well-formed analysis result used for closed evaluations. -/
def sampleAnalysis : Json :=
  mkAnalysisJson "Pasta" "Italian" 600 30 80 20 "Tasty." ["Vegetarian"]
    "Simple Pasta" ["pasta", "salt"] ["Boil.", "Serve."] "Low" [] "Enjoy your meal."

/-- Removal of one top-level key from a parsed-JSON object (used to probe
which fields the rendering supplies defaults for). -/
def removeKey (j : Json) (key : String) : Json :=
  match j with
  | .obj fields => .obj (fields.filter (fun kv => kv.1 ≠ key))
  | other => other

example : renderRightPanel none defaultGoal = .ok .placeholder := rfl

/-! ### JSON parsing (Python `json.loads`)

An executable recursive-descent parser over character lists, standing for
`json.loads` in `call_gemini`. It accepts a mild superset of strict JSON
(trailing commas, leading zeros, raw control characters in strings), so
every input it rejects is rejected by Python as well — the direction that
matters for the failure-path claims. -/

/-- The opening-brace character, written by code point. -/
def lbraceChar : Char := Char.ofNat 123

/-- The closing-brace character, written by code point. -/
def rbraceChar : Char := Char.ofNat 125

/-- Whitespace accepted between JSON tokens. -/
def jsonWs (c : Char) : Bool :=
  c = ' ' || c = '\t' || c = '\n' || c = '\r'

/-- Drop leading JSON whitespace. -/
def skipWs : List Char → List Char
  | [] => []
  | c :: rest => if jsonWs c then skipWs rest else c :: rest

/-- Consume an expected literal character sequence. -/
def expectChars : List Char → List Char → Option (List Char)
  | [], cs => some cs
  | e :: es, c :: cs => if c = e then expectChars es cs else none
  | _ :: _, [] => none

/-- A maximal run of decimal digits and the remaining input. -/
def digitSpan : List Char → List Char × List Char
  | [] => ([], [])
  | d :: more =>
    if d.isDigit then
      let split := digitSpan more
      (d :: split.1, split.2)
    else ([], d :: more)

/-- Numeric value of a digit run. -/
def decimalValue (digits : List Char) : Nat :=
  digits.foldl (fun sofar d => 10 * sofar + (d.toNat - 48)) 0

/-- Value of a hexadecimal digit, if any. -/
def hexDigitVal (h : Char) : Option Nat :=
  if h.isDigit then some (h.toNat - 48)
  else if 97 ≤ h.toNat ∧ h.toNat ≤ 102 then some (h.toNat - 97 + 10)
  else if 65 ≤ h.toNat ∧ h.toNat ≤ 70 then some (h.toNat - 65 + 10)
  else none

/-- Translation of a single-character JSON string escape. -/
def escTrans : Char → Option Char
  | '\\' => some '\\'
  | '"' => some '"'
  | 'n' => some '\n'
  | 't' => some '\t'
  | 'r' => some '\r'
  | 'b' => some (Char.ofNat 8)
  | 'f' => some (Char.ofNat 12)
  | '/' => some '/'
  | _ => none

/-- Body of a JSON string after the opening quote: the decoded characters
and the input after the closing quote. -/
def parseStringChars : List Char → Option (List Char × List Char)
  | [] => none
  | '"' :: rest => some ([], rest)
  | '\\' :: 'u' :: h1 :: h2 :: h3 :: h4 :: rest =>
    match hexDigitVal h1, hexDigitVal h2, hexDigitVal h3, hexDigitVal h4 with
    | some w, some x, some y, some z =>
      match parseStringChars rest with
      | some (tail, rem) => some (Char.ofNat (((w * 16 + x) * 16 + y) * 16 + z) :: tail, rem)
      | none => none
    | _, _, _, _ => none
  | '\\' :: e :: rest =>
    match escTrans e with
    | some decoded =>
      match parseStringChars rest with
      | some (tail, rem) => some (decoded :: tail, rem)
      | none => none
    | none => none
  | plain :: rest =>
    match parseStringChars rest with
    | some (tail, rem) => some (plain :: tail, rem)
    | none => none

/-- Fractional part of a JSON number (empty when there is no dot). -/
def parseFrac (src : List Char) : Option (ℚ × List Char) :=
  match src with
  | '.' :: afterDot =>
    let fracPart := digitSpan afterDot
    if fracPart.1.isEmpty then none
    else some ((decimalValue fracPart.1 : ℚ) / (10 : ℚ) ^ fracPart.1.length, fracPart.2)
  | _ => some (0, src)

/-- Exponent part of a JSON number, as a multiplier (1 when absent). -/
def parseExp (src : List Char) : Option (ℚ × List Char) :=
  match src with
  | marker :: afterMarker =>
    if marker = 'e' ∨ marker = 'E' then
      let signed : Bool × List Char :=
        match afterMarker with
        | '+' :: t => (false, t)
        | '-' :: t => (true, t)
        | _ => (false, afterMarker)
      let expPart := digitSpan signed.2
      if expPart.1.isEmpty then none
      else
        let scale : ℚ := (10 : ℚ) ^ decimalValue expPart.1
        some ((if signed.1 then 1 / scale else scale), expPart.2)
    else some (1, src)
  | [] => some (1, [])

/-- A JSON number starting at the current position. -/
def parseNumber (src : List Char) : Option (ℚ × List Char) :=
  let minus : Bool := match src with | '-' :: _ => true | _ => false
  let wholePart := digitSpan (if minus then src.tail else src)
  if wholePart.1.isEmpty then none
  else
    match parseFrac wholePart.2 with
    | none => none
    | some (frac, afterFrac) =>
      match parseExp afterFrac with
      | none => none
      | some (mult, afterExp) =>
        let mag := ((decimalValue wholePart.1 : ℚ) + frac) * mult
        some ((if minus then -mag else mag), afterExp)

/-- Parser modes: a single value, the items after `[`, or the members
after the opening brace. -/
inductive PMode where
  | value
  | arrItems
  | objItems

/-- Fuelled recursive-descent JSON parser. In the collection modes the
returned `Json` is the assembled array or object. -/
def parseJ : Nat → PMode → List Char → Option (Json × List Char)
  | 0, _, _ => none
  | Nat.succ fuel, PMode.value, cs0 =>
    match skipWs cs0 with
    | [] => none
    | c :: rest =>
      if c = 'n' then
        match expectChars ['u', 'l', 'l'] rest with
        | some r => some (.null, r)
        | none => none
      else if c = 't' then
        match expectChars ['r', 'u', 'e'] rest with
        | some r => some (.bool true, r)
        | none => none
      else if c = 'f' then
        match expectChars ['a', 'l', 's', 'e'] rest with
        | some r => some (.bool false, r)
        | none => none
      else if c = '"' then
        match parseStringChars rest with
        | some (s, r) => some (.str (String.mk s), r)
        | none => none
      else if c = '[' then parseJ fuel PMode.arrItems rest
      else if c = lbraceChar then parseJ fuel PMode.objItems rest
      else if c = 'N' then
        match expectChars ['a', 'N'] rest with
        | some r => some (.nan, r)
        | none => none
      else if c = 'I' then
        match expectChars ['n', 'f', 'i', 'n', 'i', 't', 'y'] rest with
        | some r => some (.infinity, r)
        | none => none
      else if c = '-' then
        match rest with
        | 'I' :: afterI =>
          match expectChars ['n', 'f', 'i', 'n', 'i', 't', 'y'] afterI with
          | some r => some (.negInfinity, r)
          | none => none
        | _ =>
          match parseNumber (c :: rest) with
          | some (q, r) => some (.num q, r)
          | none => none
      else if c.isDigit then
        match parseNumber (c :: rest) with
        | some (q, r) => some (.num q, r)
        | none => none
      else none
  | Nat.succ fuel, PMode.arrItems, cs0 =>
    match skipWs cs0 with
    | ']' :: rest => some (.arr [], rest)
    | cs =>
      match parseJ fuel PMode.value cs with
      | none => none
      | some (v, r1) =>
        match skipWs r1 with
        | ',' :: r2 =>
          match parseJ fuel PMode.arrItems r2 with
          | some (Json.arr items, r3) => some (.arr (v :: items), r3)
          | _ => none
        | ']' :: r2 => some (.arr [v], r2)
        | _ => none
  | Nat.succ fuel, PMode.objItems, cs0 =>
    match skipWs cs0 with
    | [] => none
    | c :: rest =>
      if c = rbraceChar then some (.obj [], rest)
      else if c = '"' then
        match parseStringChars rest with
        | some (key, r1) =>
          match skipWs r1 with
          | ':' :: r2 =>
            match parseJ fuel PMode.value r2 with
            | some (v, r3) =>
              match skipWs r3 with
              | ',' :: r4 =>
                match parseJ fuel PMode.objItems r4 with
                | some (Json.obj fs, r5) => some (.obj ((String.mk key, v) :: fs), r5)
                | _ => none
              | c2 :: r4 =>
                if c2 = rbraceChar then some (.obj [(String.mk key, v)], r4) else none
              | _ => none
            | none => none
          | _ => none
        | none => none
      else none

/-- Embedding of Python `json.loads`: parse one JSON document and require
only whitespace after it; `none` models `json.JSONDecodeError`. -/
def jsonLoads (s : String) : Option Json :=
  match parseJ (2 * s.length + 4) PMode.value s.data with
  | some (j, rest) => if (skipWs rest).isEmpty then some j else none
  | none => none

example : jsonLoads "null" = some Json.null := by
  simp [jsonLoads, parseJ, skipWs, jsonWs, expectChars, lbraceChar, rbraceChar, String.length]

example : jsonLoads "Hello" = none := by
  simp [jsonLoads, parseJ, skipWs, jsonWs, expectChars, lbraceChar, rbraceChar, String.length]

example : jsonLoads "NaN" = some Json.nan := by
  simp [jsonLoads, parseJ, skipWs, jsonWs, expectChars, lbraceChar, rbraceChar, String.length]

example : jsonLoads "Infinity" = some Json.infinity := by
  simp [jsonLoads, parseJ, skipWs, jsonWs, expectChars, lbraceChar, rbraceChar, String.length]

example : jsonLoads "-Infinity" = some Json.negInfinity := by
  simp [jsonLoads, parseJ, skipWs, jsonWs, expectChars, lbraceChar, rbraceChar, String.length]


/-! ### Model client and the Decode Nutrition handler -/

/-- The HTTP exchange's outcome as seen by `call_gemini`: the response
status code and the JSON response envelope. The transport itself (URL, API
key query parameter, headers, 60-second timeout) is external. -/
structure HttpResponse where
  status : Nat
  body : Json

/-- Embedding of `response.raise_for_status()`: `requests` raises
`HTTPError` exactly for status codes in `[400, 600)`, with the status code
in the error. -/
def raise_for_status (resp : HttpResponse) : Except PyError Unit :=
  if 400 ≤ resp.status ∧ resp.status < 600 then .error (.httpError resp.status)
  else .ok ()

/-- Embedding of the envelope access
`response.json()["candidates"][0]["content"]["parts"][0]["text"]`;
`json.loads` then requires the extracted value to be a string. -/
def extractText (body : Json) : Except PyError String := do
  let cands ← body.getKey "candidates"
  let c0 ← cands.index 0
  let content ← c0.getKey "content"
  let parts ← content.getKey "parts"
  let p0 ← parts.index 0
  let t ← p0.getKey "text"
  match t with
  | .str s => .ok s
  | _ => .error .typeError

/-- Embedding of `call_gemini` from the response on: raise for a non-success
status, extract the embedded text, and parse it with `json.loads`. -/
def call_gemini (resp : HttpResponse) : Except PyError Json := do
  let _ ← raise_for_status resp
  let text ← extractText resp.body
  match jsonLoads text with
  | some j => .ok j
  | none => .error .jsonDecodeError

/-- Rendering of a Python exception in the inline error message; the
`requests.HTTPError` text begins with the status code. -/
def pyErrStr : PyError → String
  | .zeroDivisionError => "division by zero"
  | .keyError (.str s) => "KeyError: " ++ s
  | .keyError _ => "KeyError"
  | .indexError => "list index out of range"
  | .typeError => "TypeError"
  | .attributeError => "AttributeError"
  | .fileNotFoundError => "FileNotFoundError"
  | .streamlitAPIException => "StreamlitAPIException"
  | .httpError s =>
    toString s ++ (if s < 500 then " Client Error for url" else " Server Error for url")
  | .jsonDecodeError => "Expecting value"

/-- Embedding of the Decode Nutrition button handler (app.py lines 182-192):
on success the Analysis Store is overwritten with the parsed object and no
error is shown; on any exception the store is left untouched and
`st.error(f"Error: {e}")` is shown. Returns the new store contents and the
surfaced inline error message, if any. -/
def decodeNutrition (store : Option Json) (resp : HttpResponse) :
    Option Json × Option String :=
  match call_gemini resp with
  | .ok j => (some j, none)
  | .error e => (store, some ("Error: " ++ pyErrStr e))

/-! ### Startup secrets loading -/

/-- Outcome of the secrets-loading block at the top of the script. -/
inductive Startup where
  | halted (msg : String)
  | crashed (e : PyError)
  | running (apiKey : String)

/-- Whether startup took the handled `st.error` + `st.stop` path. -/
def Startup.isHalted : Startup → Bool
  | .halted _ => true
  | _ => false

/-- Whether startup proceeded to serve the UI. -/
def Startup.isRunning : Startup → Bool
  | .running _ => true
  | _ => false

/-- Whether the API key credential is present in the local secrets store
(`none` models a missing `.streamlit/secrets.toml` file). -/
def hasApiKey (secrets : Option (List (String × String))) : Bool :=
  match secrets with
  | none => false
  | some kvs => (assocGetS kvs "GEMINI_API_KEY").isSome

/-- Embedding of app.py lines 19-23: `st.secrets["GEMINI_API_KEY"]` raises
`FileNotFoundError` when no secrets file exists — which the handler catches,
shows an error for, and stops — but raises `KeyError` when the file exists
without the key, which no handler catches. -/
def loadStartup (secrets : Option (List (String × String))) : Startup :=
  match secrets with
  | none => .halted "Secrets file not found. Please set up your .streamlit/secrets.toml"
  | some kvs =>
    match assocGetS kvs "GEMINI_API_KEY" with
    | some k => .running k
    | none => .crashed (.keyError (.str "GEMINI_API_KEY"))

/-! ### The encoder: base64 over the compressed byte stream

`image_to_base64` saves the bitmap as JPEG into a buffer (PIL, an external
library, deterministic at its default quality setting) and base64-encodes
the buffer. The encoder is modelled from the JPEG byte stream on; base64
encoding and decoding are executable below. -/

/-- Character of a 6-bit group in the standard base64 alphabet. -/
def sextetChar (n : Nat) : Char :=
  if n < 26 then Char.ofNat (65 + n)
  else if n < 52 then Char.ofNat (97 + (n - 26))
  else if n < 62 then Char.ofNat (48 + (n - 52))
  else if n = 62 then '+' else '/'

/-- Value of a base64 alphabet character, if any. -/
def charSextet (c : Char) : Option Nat :=
  if 65 ≤ c.toNat ∧ c.toNat ≤ 90 then some (c.toNat - 65)
  else if 97 ≤ c.toNat ∧ c.toNat ≤ 122 then some (c.toNat - 97 + 26)
  else if 48 ≤ c.toNat ∧ c.toNat ≤ 57 then some (c.toNat - 48 + 52)
  else if c = '+' then some 62
  else if c = '/' then some 63
  else none

/-- Base64 encoding of a byte list, three bytes to four characters, with
`=` padding. -/
def b64EncodeChunks : List Nat → List Char
  | a :: b :: c :: rest =>
    sextetChar (a / 4) :: sextetChar ((a % 4) * 16 + b / 16) ::
      sextetChar ((b % 16) * 4 + c / 64) :: sextetChar (c % 64) :: b64EncodeChunks rest
  | [a, b] => [sextetChar (a / 4), sextetChar ((a % 4) * 16 + b / 16),
               sextetChar ((b % 16) * 4), '=']
  | [a] => [sextetChar (a / 4), sextetChar ((a % 4) * 16), '=', '=']
  | [] => []

/-- Base64 decoding of a character list, strict about padding. -/
def b64DecodeChunks : List Char → Option (List Nat)
  | [] => some []
  | c1 :: c2 :: c3 :: c4 :: rest =>
    match charSextet c1, charSextet c2 with
    | some s1, some s2 =>
      if c3 = '=' then
        if c4 = '=' ∧ rest = [] then
          if s2 % 16 = 0 then some [s1 * 4 + s2 / 16] else none
        else none
      else
        match charSextet c3 with
        | some s3 =>
          if c4 = '=' then
            if rest = [] then
              if s3 % 4 = 0 then some [s1 * 4 + s2 / 16, (s2 % 16) * 16 + s3 / 4]
              else none
            else none
          else
            match charSextet c4 with
            | some s4 =>
              match b64DecodeChunks rest with
              | some tail =>
                some ((s1 * 4 + s2 / 16) :: ((s2 % 16) * 16 + s3 / 4) ::
                  ((s3 % 4) * 64 + s4) :: tail)
              | none => none
            | none => none
        | none => none
    | _, _ => none
  | _ => none

/-- Embedding of `image_to_base64` from the compressed byte stream on:
`base64.b64encode(buffer.getvalue()).decode()`. -/
def image_to_base64 (jpegBytes : List Nat) : String :=
  String.mk (b64EncodeChunks jpegBytes)

/-- Modelled from the spec: base64 decoding of the text payload back to a
byte stream, for the round-trip property; the decoding step itself is not
part of the repository. -/
def b64decode (s : String) : Option (List Nat) :=
  b64DecodeChunks s.data

/-! ### Helper lemmas -/

/-- Inversion for a successful monadic bind over `Except PyError`. -/
theorem bindOk {α β : Type} {e : Except PyError α} {f : α → Except PyError β} {v : β} :
    (e >>= f) = .ok v ↔ ∃ a, e = .ok a ∧ f a = .ok v := by
  cases e <;> simp [Bind.bind, Except.bind]

/-- Inversion for a successful `pyDiv`. -/
theorem pyDivOk {a b r : ℚ} (h : pyDiv a b = .ok r) : b ≠ 0 ∧ r = a / b := by
  by_cases hb : b = 0
  · simp [pyDiv, hb] at h
  · simp [pyDiv, hb] at h
    exact ⟨hb, h.symm⟩

/-- Inversion for a successful `progressValue`. -/
theorem progressValueOk {v g r : ℚ} (h : progressValue v g = .ok r) :
    g ≠ 0 ∧ r = min (v / g) 1 := by
  by_cases hg : g = 0
  · simp [progressValue, pyDiv, hg, Except.map] at h
  · simp [progressValue, pyDiv, hg, Except.map] at h
    exact ⟨hg, h.symm⟩

/-- Inversion for a successful `st_progress`. -/
theorem stProgressOk {v w : ℚ} (h : st_progress v = .ok w) : w = v := by
  simp only [st_progress] at h
  split at h
  · injection h with h
    exact h.symm
  · simp at h

/-- Modelled from the spec: the percentage-of-goal formula of section 4.5,
`round(value / goal * 100)`, for comparison with the rendered view. -/
def specPercentOfGoal (value goal : ℚ) : ℤ :=
  pyRound (value / goal * 100)

/-! ### C6: donut chart category order and colors -/

/-- C6: for every triple of macro gram values, the donut chart presents the
three values with category order fixed as Protein, Carbs, Fat, and with the
fixed per-category color mapping, regardless of the values. -/
theorem donut_fixed_order_and_colors (protein carbs fat : ℚ) :
    (create_donut_chart protein carbs fat).data =
      [("Protein", protein), ("Carbs", carbs), ("Fat", fat)] ∧
    (create_donut_chart protein carbs fat).colorDomain = ["Protein", "Carbs", "Fat"] ∧
    (create_donut_chart protein carbs fat).colorRange = ["#36a2eb", "#ffcd56", "#ff6384"] :=
  ⟨rfl, rfl, rfl⟩

/-! ### C3: progress clamping -/

/-- C3 as stated is false on the code: with value 1 and goal -2 we have
value > goal, yet the progress value is `min(1 / -2, 1.0) = -1/2`, not 1.0
(the quantification must be restricted to positive goals). -/
theorem progress_clamp_counterexample :
    (-2 : ℚ) < 1 ∧ progressValue 1 (-2) = .ok (-(1 / 2)) ∧ progressValue 1 (-2) ≠ .ok 1 := by
  refine ⟨by norm_num, ?_, ?_⟩
  · norm_num [progressValue, pyDiv, Except.map, min_def]
  · norm_num [progressValue, pyDiv, Except.map, min_def]

/-- C3 amended: for every macro value and positive goal, the progress
indicator value is clamped to exactly 1.0 when the value exceeds the goal,
and equals value / goal when the value is at most the goal. -/
theorem progress_clamped_at_one (value goal : ℚ) (hg : 0 < goal) :
    (goal < value → progressValue value goal = .ok 1) ∧
    (value ≤ goal → progressValue value goal = .ok (value / goal)) := by
  constructor
  · intro hv
    have h1 : (1 : ℚ) ≤ value / goal := (one_le_div hg).mpr (le_of_lt hv)
    simp [progressValue, pyDiv, ne_of_gt hg, Except.map, min_eq_right h1]
  · intro hv
    have h1 : value / goal ≤ 1 := (div_le_one hg).mpr hv
    simp [progressValue, pyDiv, ne_of_gt hg, Except.map, min_eq_left h1]

/-- Witness for C3's amended theorem at proteinG 150 against goal 120. -/
theorem progress_clamped_at_one_witness :
    (0 : ℚ) < 120 ∧ (120 : ℚ) < 150 ∧ progressValue 150 120 = .ok 1 :=
  ⟨by norm_num, by norm_num,
    (progress_clamped_at_one 150 120 (by norm_num)).1 (by norm_num)⟩

/-! ### C2: percentage-of-goal computation -/

/-- An analysis result whose protein grams exceed the protein goal. -/
def overSample : Json :=
  mkAnalysisJson "Steak" "American" 600 150 80 20 "Rich." [] "Steak"
    ["steak"] ["Sear."] "Low" [] "Enjoy."

/-- C2 as stated is false on the code: no per-macro rounded percentage is
computed. For proteinG 150 against goal 120 the per-macro goal-relative
indicator the view carries is the clamped progress value 1.0, while
`round(150 / 120 * 100)` is 125; the view holds no field equal to it. -/
theorem macro_percent_counterexample :
    (renderNutritionTab overSample defaultGoal).map NutritionTab.proteinProgress = .ok 1 ∧
    specPercentOfGoal 150 120 = 125 ∧
    (1 : ℚ) ≠ 125 / 100 := by
  refine ⟨?_, ?_, by norm_num⟩
  · simp +decide [renderNutritionTab, overSample, mkAnalysisJson, defaultGoal, Json.getKey,
      Json.asNum, assocGet, progressValue, st_progress, pyDiv, Except.map,
      bind, Except.bind, pure, Except.pure]
    norm_num [min_def]
  · norm_num [specPercentOfGoal, pyRound]

/-- C2 amended: whenever the Nutrition tab renders, the Energy metric's
percentage equals the spec formula `round(calories / goal * 100)`; the
per-macro indicators are the clamped ratios `min(value / goal, 1.0)`, not
rounded percentages. -/
theorem energy_pct_refines_spec (data : Json) (goals : DailyGoal) (view : NutritionTab)
    (h : renderNutritionTab data goals = .ok view) :
    view.energyPct = specPercentOfGoal view.energyValue goals.calories ∧
    view.proteinProgress = min (view.proteinVal / goals.proteinG) 1 ∧
    view.carbsProgress = min (view.carbsVal / goals.carbsG) 1 ∧
    view.fatProgress = min (view.fatVal / goals.fatG) 1 := by
  rw [renderNutritionTab] at h
  rw [bindOk] at h
  obtain ⟨calJ, hcalJ, h⟩ := h
  rw [bindOk] at h
  obtain ⟨cal, hcal, h⟩ := h
  rw [bindOk] at h
  obtain ⟨ratio, hratio, h⟩ := h
  rw [bindOk] at h
  obtain ⟨macros, hmacros, h⟩ := h
  rw [bindOk] at h
  obtain ⟨pJ, hpJ, h⟩ := h
  rw [bindOk] at h
  obtain ⟨p, hp, h⟩ := h
  rw [bindOk] at h
  obtain ⟨cJ, hcJ, h⟩ := h
  rw [bindOk] at h
  obtain ⟨c, hc, h⟩ := h
  rw [bindOk] at h
  obtain ⟨fJ, hfJ, h⟩ := h
  rw [bindOk] at h
  obtain ⟨f, hf, h⟩ := h
  rw [bindOk] at h
  obtain ⟨pr, hpr, h⟩ := h
  rw [bindOk] at h
  obtain ⟨pp, hpp, h⟩ := h
  rw [bindOk] at h
  obtain ⟨cr, hcr, h⟩ := h
  rw [bindOk] at h
  obtain ⟨cp, hcp, h⟩ := h
  rw [bindOk] at h
  obtain ⟨fr, hfr, h⟩ := h
  rw [bindOk] at h
  obtain ⟨fp, hfp, h⟩ := h
  simp only [pure, Except.pure] at h
  injection h with h
  subst h
  obtain ⟨-, hratio'⟩ := pyDivOk hratio
  obtain ⟨-, hpr'⟩ := progressValueOk hpr
  obtain ⟨-, hcr'⟩ := progressValueOk hcr
  obtain ⟨-, hfr'⟩ := progressValueOk hfr
  have hpp' := stProgressOk hpp
  have hcp' := stProgressOk hcp
  have hfp' := stProgressOk hfp
  subst hratio' hpr' hcr' hfr' hpp' hcp' hfp'
  exact ⟨rfl, rfl, rfl, rfl⟩

/-- The view the Nutrition tab produces for the sample meal against the
default goals. -/
def sampleNutritionView : NutritionTab :=
  { energyValue := 600, energyPct := 30, donut := create_donut_chart 30 80 20,
    proteinVal := 30, carbsVal := 80, fatVal := 20,
    proteinProgress := 1 / 4, carbsProgress := 8 / 25, fatProgress := 4 / 13 }

/-- Witness for C2's amended theorem: the sample meal (600 kcal against the
2000 kcal default goal) renders with an Energy percentage of 30, the spec
formula's value. -/
theorem energy_pct_refines_spec_witness :
    renderNutritionTab sampleAnalysis defaultGoal = .ok sampleNutritionView ∧
    sampleNutritionView.energyPct
      = specPercentOfGoal sampleNutritionView.energyValue defaultGoal.calories := by
  have h : renderNutritionTab sampleAnalysis defaultGoal = .ok sampleNutritionView := by
    simp +decide [renderNutritionTab, sampleAnalysis, mkAnalysisJson, defaultGoal, Json.getKey,
      Json.asNum, assocGet, progressValue, st_progress, pyDiv, Except.map,
      bind, Except.bind, pure, Except.pure, sampleNutritionView]
    norm_num [min_def, pyRound]
  exact ⟨h, (energy_pct_refines_spec sampleAnalysis defaultGoal sampleNutritionView h).1⟩

/-! ### C7: unguarded division by zero goals -/

/-- Whether a fallible computation succeeded. -/
def exceptOk {α : Type} : Except PyError α → Bool
  | .ok _ => true
  | .error _ => false

/-- Nonzero-denominator facts for the default goals, shared by concrete
evaluations. -/
theorem defaultCalNe : ((2000 : ℚ) = 0) = False := by norm_num

/-- Nonzero protein goal fact. -/
theorem defaultProNe : ((120 : ℚ) = 0) = False := by norm_num

/-- Nonzero carbs goal fact. -/
theorem defaultCarbNe : ((250 : ℚ) = 0) = False := by norm_num

/-- Nonzero fat goal fact. -/
theorem defaultFatNe : ((65 : ℚ) = 0) = False := by norm_num

/-- C7: with an analysis result present, a zero in any of the four goal
fields reaches an unguarded division by zero in the presentation layer:
the render pass aborts with `ZeroDivisionError`, with no handling code on
that path. -/
theorem zero_goal_division_crashes :
    renderRightPanel (some sampleAnalysis) { defaultGoal with calories := 0 }
      = .error .zeroDivisionError ∧
    renderRightPanel (some sampleAnalysis) { defaultGoal with proteinG := 0 }
      = .error .zeroDivisionError ∧
    renderRightPanel (some sampleAnalysis) { defaultGoal with carbsG := 0 }
      = .error .zeroDivisionError ∧
    renderRightPanel (some sampleAnalysis) { defaultGoal with fatG := 0 }
      = .error .zeroDivisionError := by
  refine ⟨?_, ?_, ?_, ?_⟩ <;>
  · simp +decide [renderRightPanel, renderAnalysis, renderHeader, renderNutritionTab,
      renderRecipeTab, renderSafetyTab, sampleAnalysis, mkAnalysisJson, Json.getKey, Json.getD,
      Json.asNum, Json.asArr, Json.truthy, assocGet, progressValue, st_progress, pyDiv,
      defaultGoal, defaultCalNe, defaultProNe, defaultCarbNe, defaultFatNe,
      bind, Except.bind, pure, Except.pure, Except.map, min_def]
    try norm_num

/-! ### C4: allergen severity rendering -/

/-- C4: for every well-formed analysis result (risk level in the schema's
enumeration), the Health & Safety tab renders the severity-to-color mapping
High to red, Medium to orange, Low to green; the advice is shown in warning
style exactly when the risk level is not "Low"; and the listed entries are
exactly the detected list. -/
theorem allergen_severity_rendering (fn ct : String) (cal p c f : ℚ) (ins : String)
    (tags : List String) (rt : String) (ings instrs : List String) (rl : String)
    (detected : List String) (advice : String)
    (h : rl = "High" ∨ rl = "Medium" ∨ rl = "Low") :
    renderSafetyTab (mkAnalysisJson fn ct cal p c f ins tags rt ings instrs rl detected advice)
      = .ok { riskColor := if rl = "High" then "red" else if rl = "Medium" then "orange" else "green",
              riskLevel := .str rl,
              adviceIsWarning := decide (rl ≠ "Low"),
              advice := .str advice,
              showsDetected := !(detected.map Json.str).isEmpty,
              listed := detected.map .str } := by
  rcases h with rfl | rfl | rfl <;> cases detected <;>
    simp +decide [renderSafetyTab, mkAnalysisJson, Json.getKey, assocGet, dictGetJson,
      assocGetS, risk_color, Json.isStrEq, Json.truthy, Json.asArr,
      bind, Except.bind, pure, Except.pure]

/-- Witness for C4 at risk level Medium with a detected peanuts entry: an
orange marker, warning style, and the peanuts entry listed. -/
theorem allergen_severity_rendering_witness :
    ("Medium" = "High" ∨ "Medium" = "Medium" ∨ "Medium" = "Low") ∧
    renderSafetyTab (mkAnalysisJson "Satay" "Thai" 500 30 40 20 "Nutty." [] "Satay" [] []
        "Medium" ["peanuts"] "Avoid if allergic.")
      = .ok { riskColor := "orange", riskLevel := .str "Medium", adviceIsWarning := true,
              advice := .str "Avoid if allergic.", showsDetected := true,
              listed := [.str "peanuts"] } := by
  refine ⟨Or.inr (Or.inl rfl), ?_⟩
  have h := allergen_severity_rendering "Satay" "Thai" 500 30 40 20 "Nutty." [] "Satay" [] []
    "Medium" ["peanuts"] "Avoid if allergic." (Or.inr (Or.inl rfl))
  rw [h]
  simp +decide

/-! ### C10: invalid risk level crashes outside the handler -/

/-- C10: if the Analysis Store holds a result whose riskLevel is any string
outside the schema's enumeration, the risk rendering hits a failing lookup
on the `risk_color` dict: the render pass aborts with `KeyError` carrying
that risk level. This happens in the right-panel render, outside the
Decode Nutrition try/except (`decodeNutrition`), so no inline error message
is produced for it. -/
theorem invalid_risk_level_unhandled (fn ct : String) (cal p c f : ℚ) (ins : String)
    (tags : List String) (rt : String) (ings instrs : List String) (rl : String)
    (det : List String) (adv : String)
    (hp : 0 ≤ p) (hc : 0 ≤ c) (hf : 0 ≤ f)
    (h1 : rl ≠ "High") (h2 : rl ≠ "Medium") (h3 : rl ≠ "Low") :
    renderRightPanel (some (mkAnalysisJson fn ct cal p c f ins tags rt ings instrs rl det adv))
        defaultGoal = .error (.keyError (.str rl)) := by
  have hp1 : (0 : ℚ) ≤ min (p / 120) 1 := le_min (by positivity) (by norm_num)
  have hc1 : (0 : ℚ) ≤ min (c / 250) 1 := le_min (by positivity) (by norm_num)
  have hf1 : (0 : ℚ) ≤ min (f / 65) 1 := le_min (by positivity) (by norm_num)
  simp +decide [renderRightPanel, renderAnalysis, renderHeader, renderNutritionTab,
    renderRecipeTab, renderSafetyTab, mkAnalysisJson, Json.getKey, Json.getD,
    Json.asNum, Json.asArr, Json.truthy, Json.isStrEq, assocGet, dictGetJson, assocGetS,
    risk_color, progressValue, st_progress, pyDiv, defaultGoal,
    defaultCalNe, defaultProNe, defaultCarbNe, defaultFatNe,
    hp1, hc1, hf1, min_le_right, Ne.symm h1, Ne.symm h2, Ne.symm h3,
    bind, Except.bind, pure, Except.pure, Except.map]

/-- Witness for C10 at the risk level "Extreme". -/
theorem invalid_risk_level_unhandled_witness :
    ((0 : ℚ) ≤ 30 ∧ (0 : ℚ) ≤ 80 ∧ (0 : ℚ) ≤ 20 ∧
      "Extreme" ≠ "High" ∧ "Extreme" ≠ "Medium" ∧ "Extreme" ≠ "Low") ∧
    renderRightPanel (some (mkAnalysisJson "Chili" "Mexican" 700 30 80 20 "Hot." []
        "Chili" [] [] "Extreme" [] "Beware.")) defaultGoal
      = .error (.keyError (.str "Extreme")) := by
  refine ⟨⟨by norm_num, by norm_num, by norm_num, by decide, by decide, by decide⟩, ?_⟩
  exact invalid_risk_level_unhandled "Chili" "Mexican" 700 30 80 20 "Hot." [] "Chili" [] []
    "Extreme" [] "Beware." (by norm_num) (by norm_num) (by norm_num)
    (by decide) (by decide) (by decide)

/-! ### C9: empty dietary tags and the only defaulted field -/

/-- C9: for every well-formed analysis result with an empty dietaryTags
list, the tag rendering produces only the cuisineType tag and does not
fail; and among the fields the rendering reads, dietaryTags is the only one
whose absence is tolerated (it alone is read with a default): the full
render still succeeds with the dietaryTags key removed, but fails with any
other top-level key removed. -/
theorem empty_dietary_tags_only_cuisine :
    (∀ (fn ct : String) (cal p c f : ℚ) (ins rt : String) (ings instrs : List String)
        (rl : String) (det : List String) (adv : String),
      renderHeader (mkAnalysisJson fn ct cal p c f ins [] rt ings instrs rl det adv)
        = .ok { foodName := .str fn, tags := [.str ct], insight := .str ins }) ∧
    exceptOk (renderRightPanel (some (removeKey sampleAnalysis "dietaryTags")) defaultGoal)
      = true ∧
    exceptOk (renderRightPanel (some (removeKey sampleAnalysis "foodName")) defaultGoal)
      = false ∧
    exceptOk (renderRightPanel (some (removeKey sampleAnalysis "cuisineType")) defaultGoal)
      = false ∧
    exceptOk (renderRightPanel (some (removeKey sampleAnalysis "calories")) defaultGoal)
      = false ∧
    exceptOk (renderRightPanel (some (removeKey sampleAnalysis "macronutrients")) defaultGoal)
      = false ∧
    exceptOk (renderRightPanel (some (removeKey sampleAnalysis "insightSummary")) defaultGoal)
      = false ∧
    exceptOk (renderRightPanel (some (removeKey sampleAnalysis "recipe")) defaultGoal)
      = false ∧
    exceptOk (renderRightPanel (some (removeKey sampleAnalysis "allergenAlert")) defaultGoal)
      = false := by
  refine ⟨?_, ?_, ?_, ?_, ?_, ?_, ?_, ?_, ?_⟩
  · intro fn ct cal p c f ins rt ings instrs rl det adv
    simp +decide [renderHeader, mkAnalysisJson, Json.getKey, Json.getD, Json.asArr, assocGet,
      bind, Except.bind, pure, Except.pure]
  all_goals
  · simp +decide [exceptOk, renderRightPanel, renderAnalysis, renderHeader, renderNutritionTab,
      renderRecipeTab, renderSafetyTab, sampleAnalysis, mkAnalysisJson, removeKey,
      Json.getKey, Json.getD, Json.asNum, Json.asArr, Json.truthy, Json.isStrEq,
      assocGet, dictGetJson, assocGetS, risk_color, progressValue, st_progress, pyDiv,
      defaultGoal, defaultCalNe, defaultProNe, defaultCarbNe, defaultFatNe,
      bind, Except.bind, pure, Except.pure, Except.map, min_def, List.filter]
    try norm_num

/-! ### C1: failed model calls leave the store untouched -/

/-- C1: for every store content and every failing model call — an error
HTTP status, or an HTTP 200 whose embedded text is not valid JSON — the
Decode Nutrition handler surfaces an inline error message (containing the
status code in the HTTP case) and leaves the Analysis Store unchanged. -/
theorem failed_call_preserves_store (store : Option Json) (resp : HttpResponse)
    (h : (400 ≤ resp.status ∧ resp.status < 600) ∨
      (resp.status = 200 ∧
        ∃ text, extractText resp.body = .ok text ∧ jsonLoads text = none)) :
    (decodeNutrition store resp).1 = store ∧
    ∃ msg, (decodeNutrition store resp).2 = some msg ∧
      (400 ≤ resp.status ∧ resp.status < 600 →
        ∃ pre post, msg = pre ++ (toString resp.status ++ post)) := by
  rcases h with h | ⟨h200, text, hext, hparse⟩
  · have hcg : call_gemini resp = .error (.httpError resp.status) := by
      simp [call_gemini, raise_for_status, h, bind, Except.bind]
    refine ⟨by simp [decodeNutrition, hcg], "Error: " ++ pyErrStr (.httpError resp.status),
      by simp [decodeNutrition, hcg], fun _ => ?_⟩
    exact ⟨"Error: ",
      (if resp.status < 500 then " Client Error for url" else " Server Error for url"), rfl⟩
  · have hnot : ¬(400 ≤ resp.status ∧ resp.status < 600) := by omega
    have hcg : call_gemini resp = .error .jsonDecodeError := by
      simp [call_gemini, raise_for_status, hnot, hext, hparse, bind, Except.bind]
    refine ⟨by simp [decodeNutrition, hcg], "Error: " ++ pyErrStr .jsonDecodeError,
      by simp [decodeNutrition, hcg], fun hc => absurd hc hnot⟩

/-- A server-error response. -/
def respServerErr : HttpResponse := { status := 500, body := .null }

/-- An HTTP 200 response whose embedded model text is not valid JSON. -/
def respBadJson : HttpResponse :=
  { status := 200
    body := .obj [("candidates", .arr [.obj [("content", .obj [("parts", .arr
      [.obj [("text", .str "I cannot analyze this image")]])])]])] }

/-- A pre-existing Analysis Store content. -/
def prevStore : Option Json := some (.str "previous result")

/-- Witness for C1, exercising both failure branches: an HTTP 500 and an
HTTP 200 carrying non-JSON text, each against a populated store. -/
theorem failed_call_preserves_store_witness :
    ((400 ≤ respServerErr.status ∧ respServerErr.status < 600) ∧
      (decodeNutrition prevStore respServerErr).1 = prevStore ∧
      ∃ msg, (decodeNutrition prevStore respServerErr).2 = some msg ∧
        (400 ≤ respServerErr.status ∧ respServerErr.status < 600 →
          ∃ pre post, msg = pre ++ (toString respServerErr.status ++ post))) ∧
    ((respBadJson.status = 200 ∧
        ∃ text, extractText respBadJson.body = .ok text ∧ jsonLoads text = none) ∧
      (decodeNutrition prevStore respBadJson).1 = prevStore ∧
      ∃ msg, (decodeNutrition prevStore respBadJson).2 = some msg ∧
        (400 ≤ respBadJson.status ∧ respBadJson.status < 600 →
          ∃ pre post, msg = pre ++ (toString respBadJson.status ++ post))) := by
  have h1 : 400 ≤ respServerErr.status ∧ respServerErr.status < 600 := by
    constructor <;> decide
  have h2 : respBadJson.status = 200 ∧
      ∃ text, extractText respBadJson.body = .ok text ∧ jsonLoads text = none := by
    refine ⟨rfl, "I cannot analyze this image", ?_, ?_⟩
    · simp +decide [extractText, respBadJson, Json.getKey, Json.index, assocGet,
        bind, Except.bind, pure, Except.pure]
    · simp +decide [jsonLoads, parseJ, skipWs, jsonWs, expectChars, lbraceChar, rbraceChar,
        String.length]
  exact ⟨⟨h1, failed_call_preserves_store prevStore respServerErr (Or.inl h1)⟩,
    ⟨h2, failed_call_preserves_store prevStore respBadJson (Or.inr h2)⟩⟩

/-! ### C5: missing API key at startup -/

/-- C5 as stated is false on the code: with a secrets file present but
lacking the GEMINI_API_KEY entry, the credential is absent from the local
configuration store, yet startup does not take the handled visible-error
path — the `except FileNotFoundError` handler does not catch the `KeyError`
raised by the missing key, so the script aborts with an uncaught exception
instead of the configuration error message. -/
theorem missing_key_not_halted :
    hasApiKey (some []) = false ∧
    loadStartup (some []) = .crashed (.keyError (.str "GEMINI_API_KEY")) ∧
    (loadStartup (some [])).isHalted = false :=
  ⟨rfl, rfl, rfl⟩

/-- C5 amended: the absence of the API key is always fatal (the app never
reaches the UI), and when the whole secrets file is absent — the case the
handler covers — startup halts with the visible configuration error
message; a file lacking only the key aborts with an uncaught KeyError
instead. -/
theorem missing_api_key_fatal (secrets : Option (List (String × String)))
    (h : hasApiKey secrets = false) :
    (loadStartup secrets).isRunning = false ∧
    (secrets = none →
      loadStartup secrets
        = .halted "Secrets file not found. Please set up your .streamlit/secrets.toml") := by
  constructor
  · cases secrets with
    | none => rfl
    | some kvs =>
      simp only [hasApiKey] at h
      cases hk : assocGetS kvs "GEMINI_API_KEY" with
      | none => simp [loadStartup, hk, Startup.isRunning]
      | some k => simp [hk] at h
  · intro he
    subst he
    rfl

/-- Witness for C5's amended theorem: a missing secrets file halts with the
configuration message, and an empty secrets file never reaches the UI. -/
theorem missing_api_key_fatal_witness :
    (hasApiKey none = false ∧
      loadStartup none
        = .halted "Secrets file not found. Please set up your .streamlit/secrets.toml") ∧
    (hasApiKey (some []) = false ∧ (loadStartup (some [])).isRunning = false) :=
  ⟨⟨rfl, (missing_api_key_fatal none rfl).2 rfl⟩,
    ⟨rfl, (missing_api_key_fatal (some []) rfl).1⟩⟩

/-! ### C8: encoder determinism and base64 round-trip -/

/-- Base64 alphabet characters decode back to their six-bit value, and are
never the padding character. -/
theorem charSextet_sextetChar (n : Nat) (h : n < 64) :
    charSextet (sextetChar n) = some n ∧ sextetChar n ≠ '=' := by
  have key : ∀ m : Fin 64, charSextet (sextetChar m.val) = some m.val ∧
      sextetChar m.val ≠ '=' := by decide
  exact key ⟨n, h⟩

/-- Base64 decoding inverts base64 encoding on byte lists. -/
theorem b64_roundtrip : ∀ (l : List Nat), (∀ b ∈ l, b < 256) →
    b64DecodeChunks (b64EncodeChunks l) = some l
  | [], _ => by simp [b64EncodeChunks, b64DecodeChunks]
  | [a], h => by
    have ha : a < 256 := h a (by simp)
    have h1 := charSextet_sextetChar (a / 4) (by omega)
    have h2 := charSextet_sextetChar ((a % 4) * 16) (by omega)
    simp [b64EncodeChunks, b64DecodeChunks, h1.1, h2.1,
      (by omega : (a % 4) * 16 % 16 = 0)]
    omega
  | [a, b], h => by
    have ha : a < 256 := h a (by simp)
    have hb : b < 256 := h b (by simp)
    have h1 := charSextet_sextetChar (a / 4) (by omega)
    have h2 := charSextet_sextetChar ((a % 4) * 16 + b / 16) (by omega)
    have h3 := charSextet_sextetChar ((b % 16) * 4) (by omega)
    simp [b64EncodeChunks, b64DecodeChunks, h1.1, h2.1, h3.1, h3.2,
      (by omega : (b % 16) * 4 % 4 = 0)]
    constructor <;> omega
  | a :: b :: c :: rest, h => by
    have ha : a < 256 := h a (by simp)
    have hb : b < 256 := h b (by simp)
    have hc : c < 256 := h c (by simp)
    have ih := b64_roundtrip rest (fun x hx => h x (by simp [hx]))
    have h1 := charSextet_sextetChar (a / 4) (by omega)
    have h2 := charSextet_sextetChar ((a % 4) * 16 + b / 16) (by omega)
    have h3 := charSextet_sextetChar ((b % 16) * 4 + c / 64) (by omega)
    have h4 := charSextet_sextetChar (c % 64) (by omega)
    simp [b64EncodeChunks, b64DecodeChunks, h1.1, h2.1, h3.1, h3.2, h4.1, h4.2, ih]
    refine ⟨by omega, by omega, by omega⟩

/-- C8: the encoder is deterministic — equal compressed byte streams give
equal base64 strings — and round-trips: base64-decoding the encoder's
output reproduces the JPEG byte stream exactly (hence a structurally valid
JPEG whenever the compressor's output was one). -/
theorem encoder_deterministic_and_roundtrips (jpeg : List Nat) (h : ∀ b ∈ jpeg, b < 256) :
    (∀ jpeg2, jpeg2 = jpeg → image_to_base64 jpeg2 = image_to_base64 jpeg) ∧
    b64decode (image_to_base64 jpeg) = some jpeg := by
  refine ⟨fun _ he => by rw [he], ?_⟩
  simpa [image_to_base64, b64decode] using b64_roundtrip jpeg h

/-- Witness for C8 on a concrete three-byte stream. -/
theorem encoder_roundtrips_witness :
    (∀ b ∈ [255, 0, 77], b < 256) ∧
    b64decode (image_to_base64 [255, 0, 77]) = some [255, 0, 77] :=
  ⟨by decide, (encoder_deterministic_and_roundtrips [255, 0, 77] (by decide)).2⟩
